import Mathlib

/-!
Verification development for the QuickBooks MCP server (`src/index.ts`).

The source is a single TypeScript file.  We shallowly embed the parts the
specification talks about:

* a JSON-like value type `JValue` modelling the JavaScript values flowing
  through the program (token bundles, API responses, write bodies);
* JavaScript objects are modelled as association lists `List (String × JValue)`
  whose lookup (`oGet`) agrees with JS property lookup, and object-spread
  construction is modelled by `oMerge` (later keys override earlier ones);
* the OAuth helpers `loadTokens` / `refreshTokens`, the request executor
  `qbRequest` (with explicit counters for the HTTP calls it issues), the
  interactive-authorization callback handler, the URL builder, the two field
  mappers `mapCustomerInputToQBO` / `mapAccountInputToQBO` and the four
  update tool handlers.

Network I/O is modelled by oracles: `qbRequest` receives the sequence of
responses the remote API would give (`api : Nat → HttpResp`) and the response
of the token endpoint (`tok : HttpResp`), and returns, besides its result,
how many API requests, refresh invocations and token-endpoint HTTP calls it
performed.
-/

/-- JSON-like values, standing for the JavaScript runtime values in the
source.  `null` stands for JS `null`; an absent object property (JS
`undefined`) is `Option.none` at use sites.  Numbers are modelled as
integers; no claim depends on floating-point behaviour. -/
inductive JValue where
  | null : JValue
  | bool (b : Bool) : JValue
  | num (n : Int) : JValue
  | str (s : String) : JValue
  | obj (fields : List (String × JValue)) : JValue
  | arr (elems : List JValue) : JValue

/-- Property lookup on an association list of object fields (first match;
`oMerge` keeps keys unique, matching JS objects). -/
def oGet (l : List (String × JValue)) (k : String) : Option JValue :=
  match l with
  | [] => none
  | p :: t => if p.1 == k then some p.2 else oGet t k

/-- JS `a ?? b` at the `Option` level: the first operand wins when present. -/
def oAlt (x y : Option JValue) : Option JValue :=
  match x with
  | some v => some v
  | none => y

/-- Object spread `\x7b ...a, ...b \x7d`: keys of `b` override keys of `a`.
Modelled as an association list whose lookup agrees with JS property
lookup on the spread result. -/
def oMerge (a b : List (String × JValue)) : List (String × JValue) :=
  a.filter (fun p => (oGet b p.1).isNone) ++ b

/-- Property access `v.k` (also `v?.k` on a non-nullish `v`): `none` for any
non-object, matching JS property access on primitives/null yielding
`undefined` for the property names used in this program. -/
def jGet : JValue → String → Option JValue
  | .obj fs, k => oGet fs k
  | _, _ => none

/-- JS truthiness of a value. -/
def jTruthy : JValue → Bool
  | .null => false
  | .bool b => b
  | .num n => n != 0
  | .str s => s != ""
  | .obj _ => true
  | .arr _ => true

/-- Truthiness of an optional-chaining result (`undefined` is falsy). -/
def jTruthyO : Option JValue → Bool
  | some v => jTruthy v
  | none => false

/-- Enumerable string-keyed fields contributed by spreading a value:
an object contributes its fields, `null` (after `?? \x7b\x7d`) and other
primitives contribute none. -/
def jObjFields : JValue → List (String × JValue)
  | .obj fs => fs
  | _ => []

/-! ## HTTP responses, process state, and instrumentation -/

/-- An HTTP response as the program consumes it: `status`, the raw body text
(`await resp.text()` / error payloads), and `json`, the value that
`JSON.parse(text || "\x7b\x7d")` respectively `await resp.json()` would
produce for this body. -/
structure HttpResp where
  status : Nat
  text : String
  json : JValue

/-- `resp.ok` of the fetch API: status in the range 200..299. -/
def httpOk (s : Nat) : Bool := 200 ≤ s && s < 300

/-- The mutable state of the process: `mem` is the module-level `tokens`
variable (initially JS `null`), `disk` the contents of the credentials file
(`none` when the file is absent). -/
structure World where
  mem : JValue
  disk : Option JValue

/-- How many HTTP/refresh operations a `qbRequest` run performed:
`apiCalls` counts requests to the QuickBooks API, `refreshCalls` counts
invocations of `refreshTokens`, `tokenCalls` counts HTTP calls to the OAuth
token endpoint. -/
structure Counts where
  apiCalls : Nat
  refreshCalls : Nat
  tokenCalls : Nat

/-! ## Token store and OAuth helpers -/

/-- Source `loadTokens` (lines 48-52): if the credentials file exists, parse
it into `tokens`; a missing file is not an error and leaves `tokens` as it
was (`null` at startup).  A corrupt file (parse failure) is out of scope of
the claims and not modelled. -/
def loadTokens (w : World) : World :=
  match w.disk with
  | some t => { mem := t, disk := w.disk }
  | none => w

/-- Source `refreshTokens` (lines 56-88).  Fails fast (no HTTP call) when
`tokens?.refresh_token` is falsy; otherwise performs one token-endpoint call
(`tok` is its response).  A non-2xx response is an error carrying status and
body text; on success the response fields are spread over the existing
bundle (`tokens = \x7b ...(tokens ?? \x7b\x7d), ...(data ?? \x7b\x7d) \x7d`),
stored in memory and persisted via `saveTokens`.  Returns the number of
token-endpoint HTTP calls and either the error message or the new state. -/
def refreshTokens (w : World) (tok : HttpResp) : Nat × Except String World :=
  if !(jTruthyO (jGet w.mem "refresh_token")) then
    (0, .error "No refresh_token available; re-authentication required.")
  else if !(httpOk tok.status) then
    (1, .error ("Token refresh failed: " ++ toString tok.status ++ " - " ++ tok.text))
  else
    let merged := JValue.obj (oMerge (jObjFields w.mem) (jObjFields tok.json))
    (1, .ok { mem := merged, disk := some merged })

/-- Outcome of the interactive-authorization callback handler. -/
inductive AuthOutcome where
  | noCode : AuthOutcome
  | resolved (w : World) : AuthOutcome

/-- Source `authenticate` callback handler (lines 103-138).  `code` is the
`code` query parameter (`none` when absent); a falsy code rejects the pending
authorization.  Otherwise the code is exchanged at the token endpoint and —
without consulting the response status — `await resp.json()` is stored as
the credential bundle, persisted, and the authorization resolves
successfully. -/
def authCallback (w : World) (code : Option String) (tok : HttpResp) : AuthOutcome :=
  match code with
  | none => .noCode
  | some c =>
    if c == "" then .noCode
    else .resolved { mem := tok.json, disk := some tok.json }

/-! ## The request executor -/

/-- Fixed API version parameter (source line 37). -/
def MINOR_VERSION : Nat := 75

/-- Base URL of the remote API (source line 33). -/
def QB_BASE : String := "https://sandbox-quickbooks.api.intuit.com/v3/company"

/-- JS `baseUrl.includes("?")`, decided on the character list. -/
def includesQM (s : String) : Bool := s.data.contains '?'

/-- URL construction of `qbRequest` (source lines 159-161): append the fixed
`minorversion` parameter, joining with an ampersand when the URL built so
far already contains a question mark, with a question mark otherwise.
The network oracle of the `qbRequest` model abstracts the transport, so the
URL builder is modelled as this separate function. -/
def qbUrl (realmId endpoint : String) : String :=
  let baseUrl := QB_BASE ++ "/" ++ realmId ++ "/" ++ endpoint
  baseUrl ++
    (if includesQM baseUrl then "&minorversion=" ++ toString MINOR_VERSION
     else "?minorversion=" ++ toString MINOR_VERSION)

/-- Inner `doFetch` of `qbRequest` (lines 163-189) applied to the response
it got: 2xx parses the body, 401 yields the sentinel object with a truthy
`needRefresh` field, anything else is an error carrying status and raw
body. -/
def doFetch (r : HttpResp) : Except String JValue :=
  if httpOk r.status then .ok r.json
  else if r.status == 401 then
    .ok (.obj [("needRefresh", .bool true), ("text", .str r.text)])
  else .error ("QuickBooks API error: " ++ toString r.status ++ " - " ++ r.text)

/-- The `result?.needRefresh` check of `qbRequest`. -/
def needsRefresh (v : JValue) : Bool := jTruthyO (jGet v "needRefresh")

/-- Source `qbRequest` (lines 156-200).  `api n` is the response the remote
API would give to the (n+1)-th request of this run; `tok` is the token
endpoint's response should a refresh happen.  Fails without any network call
when `tokens?.access_token` is falsy.  Otherwise: one fetch; on a
needs-refresh result, one `refreshTokens` invocation (its error aborts the
run) and one retried fetch; a second needs-refresh result is the terminal
"Unauthorized after token refresh." error.  Returns the instrumentation
counters, the final process state, and the result. -/
def qbRequest (w : World) (api : Nat → HttpResp) (tok : HttpResp) :
    Counts × World × Except String JValue :=
  if !(jTruthyO (jGet w.mem "access_token")) then
    (⟨0, 0, 0⟩, w, .error "Not authenticated. Run auth first.")
  else
    match doFetch (api 0) with
    | .error e => (⟨1, 0, 0⟩, w, .error e)
    | .ok v0 =>
      if needsRefresh v0 then
        match refreshTokens w tok with
        | (n, .error e) => (⟨1, 1, n⟩, w, .error e)
        | (n, .ok w1) =>
          match doFetch (api 1) with
          | .error e => (⟨2, 1, n⟩, w1, .error e)
          | .ok v1 =>
            if needsRefresh v1 then
              (⟨2, 1, n⟩, w1, .error "Unauthorized after token refresh.")
            else (⟨2, 1, n⟩, w1, .ok v1)
      else (⟨1, 0, 0⟩, w, .ok v0)

/-! ## Field mappers and update tool handlers -/

/-- A single optional object property: present iff the value is. -/
def jfield (k : String) (v : Option JValue) : List (String × JValue) :=
  match v with
  | some j => [(k, j)]
  | none => []

/-- Truthiness gate of `if (input.x) qbo.K = input.x` on an optional string:
absent or empty strings are omitted. -/
def tstrv : Option String → Option JValue
  | some s => if s == "" then none else some (.str s)
  | none => none

/-- Truthiness gate plus wrapping, for lines of the shape
`if (input.x) qbo.K = ( Address: input.x )` etc. -/
def wrapv (inner : String) : Option String → Option JValue
  | some s => if s == "" then none else some (.obj [(inner, .str s)])
  | none => none

/-- Optional address input (`billAddr` / `shipAddr` sub-schema). -/
structure Addr where
  line1 : Option String := none
  line2 : Option String := none
  city : Option String := none
  countrySubDivisionCode : Option String := none
  postalCode : Option String := none
  country : Option String := none

/-- Source address construction (lines 239-261): every sub-field is copied
without a truthiness gate; a JS-`undefined` sub-field is dropped by JSON
serialization, an empty string is kept. -/
def mapAddr (a : Addr) : JValue :=
  .obj (jfield "Line1" (a.line1.map .str) ++
        jfield "Line2" (a.line2.map .str) ++
        jfield "City" (a.city.map .str) ++
        jfield "CountrySubDivisionCode" (a.countrySubDivisionCode.map .str) ++
        jfield "PostalCode" (a.postalCode.map .str) ++
        jfield "Country" (a.country.map .str))

/-- Simplified customer input (create/update schema fields). -/
structure CustomerInput where
  displayName : Option String := none
  companyName : Option String := none
  title : Option String := none
  givenName : Option String := none
  middleName : Option String := none
  familyName : Option String := none
  suffix : Option String := none
  taxExempt : Option Bool := none
  notes : Option String := none
  primaryEmail : Option String := none
  primaryPhone : Option String := none
  mobilePhone : Option String := none
  fax : Option String := none
  billAddr : Option Addr := none
  shipAddr : Option Addr := none

/-- Source `mapCustomerInputToQBO` (lines 221-264), one `jfield` per source
line, in source order.  String fields are gated on truthiness (`tstrv` /
`wrapv`); `taxExempt` is gated on `typeof === "boolean"` and negated into
`Taxable`; a present address object is always truthy. -/
def mapCustomerInputToQBO (input : CustomerInput) : List (String × JValue) :=
  jfield "DisplayName" (tstrv input.displayName) ++
  jfield "CompanyName" (tstrv input.companyName) ++
  jfield "Title" (tstrv input.title) ++
  jfield "GivenName" (tstrv input.givenName) ++
  jfield "MiddleName" (tstrv input.middleName) ++
  jfield "FamilyName" (tstrv input.familyName) ++
  jfield "Suffix" (tstrv input.suffix) ++
  jfield "Taxable" (input.taxExempt.map (fun b => .bool (!b))) ++
  jfield "Notes" (tstrv input.notes) ++
  jfield "PrimaryEmailAddr" (wrapv "Address" input.primaryEmail) ++
  jfield "PrimaryPhone" (wrapv "FreeFormNumber" input.primaryPhone) ++
  jfield "Mobile" (wrapv "FreeFormNumber" input.mobilePhone) ++
  jfield "Fax" (wrapv "FreeFormNumber" input.fax) ++
  jfield "BillAddr" (input.billAddr.map mapAddr) ++
  jfield "ShipAddr" (input.shipAddr.map mapAddr)

/-- Simplified account input (create/update schema fields).  `currentBalance`
is modelled as an integer; no claim depends on float semantics. -/
structure AccountInput where
  name : Option String := none
  fullyQualifiedName : Option String := none
  accountType : Option String := none
  accountSubType : Option String := none
  description : Option String := none
  classification : Option String := none
  accountNumber : Option String := none
  taxCodeRef : Option String := none
  currencyRef : Option String := none
  subAccount : Option Bool := none
  parentRef : Option String := none
  currentBalance : Option Int := none
  active : Option Bool := none

/-- Source `mapAccountInputToQBO` (lines 267-286), one `jfield` per source
line, in source order.  Note the gates: most string fields use truthiness,
but `taxCodeRef` uses `typeof === "string"` (so an empty string passes),
`subAccount`/`active` use `typeof === "boolean"`, and `currentBalance` uses
`typeof === "number"`. -/
def mapAccountInputToQBO (input : AccountInput) : List (String × JValue) :=
  jfield "Name" (tstrv input.name) ++
  jfield "FullyQualifiedName" (tstrv input.fullyQualifiedName) ++
  jfield "AccountType" (tstrv input.accountType) ++
  jfield "AccountSubType" (tstrv input.accountSubType) ++
  jfield "Description" (tstrv input.description) ++
  jfield "Classification" (tstrv input.classification) ++
  jfield "AcctNum" (tstrv input.accountNumber) ++
  jfield "TaxCodeRef" (input.taxCodeRef.map (fun s => .obj [("value", .str s)])) ++
  jfield "CurrencyRef" (wrapv "value" input.currencyRef) ++
  jfield "SubAccount" (input.subAccount.map .bool) ++
  jfield "ParentRef" (wrapv "value" input.parentRef) ++
  jfield "CurrentBalance" (input.currentBalance.map .num) ++
  jfield "Active" (input.active.map .bool)

/-- Source `getCustomerRaw` (lines 209-212): project the `Customer` wrapper
out of the executor's parsed GET response. -/
def getCustomerRaw (data : JValue) : Option JValue := jGet data "Customer"

/-- Source `getAccountRaw` (lines 215-218). -/
def getAccountRaw (data : JValue) : Option JValue := jGet data "Account"

/-- The guard `!existing?.Id || existing.SyncToken === undefined` shared by
all four update handlers: yields the fetched `Id` and `SyncToken` values
when the record is usable, `none` otherwise (no record, falsy `Id`, or
absent `SyncToken`). -/
def fetchedIdSync (existing : Option JValue) : Option (JValue × JValue) :=
  match existing with
  | none => none
  | some e =>
    match jGet e "Id" with
    | none => none
    | some idv =>
      if jTruthy idv then
        match jGet e "SyncToken" with
        | some st => some (idv, st)
        | none => none
      else none

/-- One executor call issued by a tool handler. -/
inductive QbCall where
  | get (endpoint : String) : QbCall
  | post (endpoint : String) (body : JValue) : QbCall

/-- `data?.X ?? data` wrapper unpacking used by the handlers on the write
response. -/
def unwrapOr (data : JValue) (k : String) : JValue :=
  match jGet data k with
  | some JValue.null => data
  | some v => v
  | none => data

/-- Source `update_customer` handler (lines 550-571).  `getResult` /
`postResult` stand for what `qbRequest` returned (or threw) for the GET and
the POST of this run; the returned list records the executor calls the
handler issued, in order. -/
def update_customer (customerId : String) (sparse : Bool) (patch : CustomerInput)
    (getResult postResult : Except String JValue) :
    List QbCall × Except String JValue :=
  let fetchCall := QbCall.get ("customer/" ++ customerId)
  match getResult with
  | .error e => ([fetchCall], .error e)
  | .ok data =>
    match fetchedIdSync (getCustomerRaw data) with
    | none => ([fetchCall], .error "Could not fetch existing customer or SyncToken.")
    | some (idv, stv) =>
      let body := JValue.obj (oMerge
        (oMerge [("Id", idv), ("SyncToken", stv)]
          (if sparse then [("sparse", JValue.bool true)] else []))
        (mapCustomerInputToQBO patch))
      match postResult with
      | .error e => ([fetchCall, .post "customer?operation=update" body], .error e)
      | .ok pd =>
        ([fetchCall, .post "customer?operation=update" body], .ok (unwrapOr pd "Customer"))

/-- Source `set_customer_active` handler (lines 575-601): a fixed sparse
write body `Id`, `SyncToken`, `sparse:true`, `Active:active`. -/
def set_customer_active (customerId : String) (active : Bool)
    (getResult postResult : Except String JValue) :
    List QbCall × Except String JValue :=
  let fetchCall := QbCall.get ("customer/" ++ customerId)
  match getResult with
  | .error e => ([fetchCall], .error e)
  | .ok data =>
    match fetchedIdSync (getCustomerRaw data) with
    | none => ([fetchCall], .error "Could not fetch existing customer or SyncToken.")
    | some (idv, stv) =>
      let body := JValue.obj [("Id", idv), ("SyncToken", stv),
        ("sparse", JValue.bool true), ("Active", JValue.bool active)]
      match postResult with
      | .error e => ([fetchCall, .post "customer?operation=update" body], .error e)
      | .ok pd =>
        ([fetchCall, .post "customer?operation=update" body], .ok (unwrapOr pd "Customer"))

/-- Source `update_account` handler (lines 685-704). -/
def update_account (accountId : String) (sparse : Bool) (patch : AccountInput)
    (getResult postResult : Except String JValue) :
    List QbCall × Except String JValue :=
  let fetchCall := QbCall.get ("account/" ++ accountId)
  match getResult with
  | .error e => ([fetchCall], .error e)
  | .ok data =>
    match fetchedIdSync (getAccountRaw data) with
    | none => ([fetchCall], .error "Could not fetch existing account or SyncToken.")
    | some (idv, stv) =>
      let body := JValue.obj (oMerge
        (oMerge [("Id", idv), ("SyncToken", stv)]
          (if sparse then [("sparse", JValue.bool true)] else []))
        (mapAccountInputToQBO patch))
      match postResult with
      | .error e => ([fetchCall, .post "account?operation=update" body], .error e)
      | .ok pd =>
        ([fetchCall, .post "account?operation=update" body], .ok (unwrapOr pd "Account"))

/-- Source `set_account_active` handler (lines 708-732). -/
def set_account_active (accountId : String) (active : Bool)
    (getResult postResult : Except String JValue) :
    List QbCall × Except String JValue :=
  let fetchCall := QbCall.get ("account/" ++ accountId)
  match getResult with
  | .error e => ([fetchCall], .error e)
  | .ok data =>
    match fetchedIdSync (getAccountRaw data) with
    | none => ([fetchCall], .error "Could not fetch existing account or SyncToken.")
    | some (idv, stv) =>
      let body := JValue.obj [("Id", idv), ("SyncToken", stv),
        ("sparse", JValue.bool true), ("Active", JValue.bool active)]
      match postResult with
      | .error e => ([fetchCall, .post "account?operation=update" body], .error e)
      | .ok pd =>
        ([fetchCall, .post "account?operation=update" body], .ok (unwrapOr pd "Account"))

/-! ## Lemmas about object lookup and spread -/

theorem oGet_append (a b : List (String × JValue)) (k : String) :
    oGet (a ++ b) k = oAlt (oGet a k) (oGet b k) := by
  induction a with
  | nil => simp [oGet, oAlt]
  | cons p t ih =>
    by_cases h : p.1 == k
    · simp [oGet, h, oAlt]
    · simp [oGet, h, ih]

theorem oGet_filter_by (a b : List (String × JValue)) (k : String) :
    oGet (a.filter (fun p => (oGet b p.1).isNone)) k =
      if (oGet b k).isNone then oGet a k else none := by
  induction a with
  | nil => simp [oGet]
  | cons p t ih =>
    by_cases hk : p.1 == k
    · have hkk : p.1 = k := by simpa using hk
      by_cases hb : (oGet b k).isNone
      · simp [List.filter, hkk, hb, oGet]
      · simp [List.filter, hkk, hb, oGet, ih]
    · by_cases hb : (oGet b p.1).isNone
      · simp [List.filter, hb, oGet, hk, ih]
      · simp [List.filter, hb, oGet, hk, ih]

/-- Lookup on an object spread: the right (later) operand wins, otherwise
the left survives. -/
theorem oGet_oMerge (a b : List (String × JValue)) (k : String) :
    oGet (oMerge a b) k = oAlt (oGet b k) (oGet a k) := by
  unfold oMerge
  rw [oGet_append, oGet_filter_by]
  cases h : oGet b k with
  | none =>
    simp only [h, Option.isNone_none, if_true, oAlt]
    cases oGet a k <;> rfl
  | some v => simp [h, oAlt]

theorem oGet_jfield (k k' : String) (v : Option JValue) :
    oGet (jfield k v) k' = if k == k' then v else none := by
  cases v with
  | some j => by_cases h : k == k' <;> simp [jfield, oGet, h]
  | none => cases h : (k == k') <;> simp [jfield, oGet, h]

theorem oAlt_none (x : Option JValue) : oAlt x none = x := by
  cases x <;> rfl

/-- The customer mapper never emits the metadata keys of the write body. -/
theorem mapCustomer_no_meta (p : CustomerInput) :
    oGet (mapCustomerInputToQBO p) "Id" = none ∧
    oGet (mapCustomerInputToQBO p) "SyncToken" = none ∧
    oGet (mapCustomerInputToQBO p) "sparse" = none := by
  refine ⟨?_, ?_, ?_⟩ <;>
    simp [mapCustomerInputToQBO, oGet_append, oGet_jfield, oAlt, oAlt_none]

/-- The account mapper never emits the metadata keys of the write body. -/
theorem mapAccount_no_meta (p : AccountInput) :
    oGet (mapAccountInputToQBO p) "Id" = none ∧
    oGet (mapAccountInputToQBO p) "SyncToken" = none ∧
    oGet (mapAccountInputToQBO p) "sparse" = none := by
  refine ⟨?_, ?_, ?_⟩ <;>
    simp [mapAccountInputToQBO, oGet_append, oGet_jfield, oAlt, oAlt_none]

/-! ## Claim theorems -/

/-- Claim C5: whenever refresh is invoked while the credential bundle has no
truthy `refresh_token` (including a null bundle), it fails with the distinct
re-authentication-required error and issues no HTTP call to the token
endpoint (token-call count 0). -/
theorem refreshTokens_unavailable (w : World) (tok : HttpResp)
    (h : jTruthyO (jGet w.mem "refresh_token") = false) :
    refreshTokens w tok =
      (0, .error "No refresh_token available; re-authentication required.") := by
  simp [refreshTokens, h]

theorem refreshTokens_unavailable_witness :
    jTruthyO (jGet JValue.null "refresh_token") = false ∧
    refreshTokens ⟨JValue.null, none⟩ ⟨200, "", JValue.obj []⟩ =
      (0, .error "No refresh_token available; re-authentication required.") :=
  ⟨rfl, refreshTokens_unavailable ⟨JValue.null, none⟩ ⟨200, "", JValue.obj []⟩ rfl⟩

/-- Claim C7: the executor appends the fixed `minorversion` parameter with an
ampersand when the URL built so far already carries a question mark, and with
a question mark when it does not. -/
theorem qbUrl_joins_query (realmId endpoint : String) :
    (includesQM (QB_BASE ++ "/" ++ realmId ++ "/" ++ endpoint) = true →
      qbUrl realmId endpoint =
        (QB_BASE ++ "/" ++ realmId ++ "/" ++ endpoint) ++
          "&minorversion=" ++ toString MINOR_VERSION) ∧
    (includesQM (QB_BASE ++ "/" ++ realmId ++ "/" ++ endpoint) = false →
      qbUrl realmId endpoint =
        (QB_BASE ++ "/" ++ realmId ++ "/" ++ endpoint) ++
          "?minorversion=" ++ toString MINOR_VERSION) := by
  constructor <;> intro h <;>
    (simp only [String.append_assoc] at h; simp [qbUrl, h, String.append_assoc])

theorem qbUrl_joins_query_witness :
    (includesQM (QB_BASE ++ "/" ++ "r1" ++ "/" ++ "query?query=SELECT") = true ∧
      qbUrl "r1" "query?query=SELECT" =
        (QB_BASE ++ "/" ++ "r1" ++ "/" ++ "query?query=SELECT") ++
          "&minorversion=" ++ toString MINOR_VERSION) ∧
    (includesQM (QB_BASE ++ "/" ++ "r1" ++ "/" ++ "customer/7") = false ∧
      qbUrl "r1" "customer/7" =
        (QB_BASE ++ "/" ++ "r1" ++ "/" ++ "customer/7") ++
          "?minorversion=" ++ toString MINOR_VERSION) :=
  ⟨⟨by decide, (qbUrl_joins_query "r1" "query?query=SELECT").1 (by decide)⟩,
   ⟨by decide, (qbUrl_joins_query "r1" "customer/7").2 (by decide)⟩⟩

/-- Claim C8: loading tokens with the credentials file absent is not an
error and leaves the in-memory bundle null, and a subsequent executor call
fails with the not-authenticated error with zero API and token-endpoint
calls, whatever the network would have answered. -/
theorem loadTokens_absent_not_authenticated (api : Nat → HttpResp) (tok : HttpResp) :
    loadTokens ⟨JValue.null, none⟩ = ⟨JValue.null, none⟩ ∧
    qbRequest (loadTokens ⟨JValue.null, none⟩) api tok =
      (⟨0, 0, 0⟩, ⟨JValue.null, none⟩, .error "Not authenticated. Run auth first.") :=
  ⟨rfl, rfl⟩

/-- Claim C9: the interactive-authorization callback handler never consults
the token endpoint's HTTP status: with any truthy code and any non-2xx
response whose body parses to `tok.json`, that payload is stored as the
credential bundle, persisted, and the flow resolves successfully; and the
outcome is a function of the response body alone, not the status. -/
theorem authCallback_ignores_status (w : World) (c : String) (tok : HttpResp)
    (hc : (c == "") = false) (hbad : httpOk tok.status = false) :
    authCallback w (some c) tok = .resolved ⟨tok.json, some tok.json⟩ ∧
    ∀ (w' : World) (code : Option String) (s1 s2 : Nat) (t1 t2 : String) (j : JValue),
      authCallback w' code ⟨s1, t1, j⟩ = authCallback w' code ⟨s2, t2, j⟩ := by
  refine ⟨by simp [authCallback, hc], ?_⟩
  intro w' code s1 s2 t1 t2 j
  cases code <;> simp [authCallback]

theorem authCallback_ignores_status_witness :
    authCallback ⟨JValue.null, none⟩ (some "authcode")
        ⟨400, "bad request", JValue.obj [("error", JValue.str "invalid_grant")]⟩ =
      .resolved ⟨JValue.obj [("error", JValue.str "invalid_grant")],
        some (JValue.obj [("error", JValue.str "invalid_grant")])⟩ :=
  (authCallback_ignores_status ⟨JValue.null, none⟩ "authcode"
    ⟨400, "bad request", JValue.obj [("error", JValue.str "invalid_grant")]⟩
    rfl rfl).1

/-- Claim C4: after a successful refresh on a pre-existing object bundle,
the merged bundle is stored in memory and persisted to disk, every field of
the refresh response keeps the response's value in the merge, and every
bundle field absent from the response keeps its old value. -/
theorem refreshTokens_merges (w : World) (tok : HttpResp)
    (bf rf : List (String × JValue))
    (hb : w.mem = .obj bf) (hj : tok.json = .obj rf)
    (hrt : jTruthyO (jGet w.mem "refresh_token") = true)
    (hok : httpOk tok.status = true) :
    refreshTokens w tok =
      (1, .ok ⟨JValue.obj (oMerge bf rf), some (JValue.obj (oMerge bf rf))⟩) ∧
    (∀ k v, oGet rf k = some v → oGet (oMerge bf rf) k = some v) ∧
    (∀ k, oGet rf k = none → oGet (oMerge bf rf) k = oGet bf k) := by
  have hrt2 := hrt
  rw [hb] at hrt2
  refine ⟨by simp [refreshTokens, hrt2, hok, hb, hj, jObjFields], ?_, ?_⟩
  · intro k v hv
    rw [oGet_oMerge, hv]
    rfl
  · intro k hv
    rw [oGet_oMerge, hv]
    rfl

theorem refreshTokens_merges_witness :
    refreshTokens
        ⟨JValue.obj [("access_token", JValue.str "old"),
                     ("refresh_token", JValue.str "r"),
                     ("x_extra", JValue.str "keep")], none⟩
        ⟨200, "", JValue.obj [("access_token", JValue.str "new"),
                              ("refresh_token", JValue.str "r2")]⟩ =
      (1, .ok ⟨JValue.obj [("x_extra", JValue.str "keep"),
                           ("access_token", JValue.str "new"),
                           ("refresh_token", JValue.str "r2")],
               some (JValue.obj [("x_extra", JValue.str "keep"),
                                 ("access_token", JValue.str "new"),
                                 ("refresh_token", JValue.str "r2")])⟩) :=
  (refreshTokens_merges
    ⟨JValue.obj [("access_token", JValue.str "old"),
                 ("refresh_token", JValue.str "r"),
                 ("x_extra", JValue.str "keep")], none⟩
    ⟨200, "", JValue.obj [("access_token", JValue.str "new"),
                          ("refresh_token", JValue.str "r2")]⟩
    [("access_token", JValue.str "old"), ("refresh_token", JValue.str "r"),
     ("x_extra", JValue.str "keep")]
    [("access_token", JValue.str "new"), ("refresh_token", JValue.str "r2")]
    rfl rfl rfl rfl).1

/-- Claim C6: an authenticated request whose response is neither 2xx nor 401
fails immediately with an error carrying the status and the raw response
body; the executor issues exactly one API request, never refreshes and never
retries. -/
theorem qbRequest_non401_error (w : World) (api : Nat → HttpResp) (tok : HttpResp)
    (hauth : jTruthyO (jGet w.mem "access_token") = true)
    (hok : httpOk (api 0).status = false)
    (h401 : ((api 0).status == 401) = false) :
    qbRequest w api tok =
      (⟨1, 0, 0⟩, w, .error ("QuickBooks API error: " ++
        toString (api 0).status ++ " - " ++ (api 0).text)) := by
  simp [qbRequest, hauth, doFetch, hok, h401]

theorem qbRequest_non401_error_witness :
    qbRequest ⟨JValue.obj [("access_token", JValue.str "t")], none⟩
        (fun _ => ⟨409, "stale object conflict", JValue.null⟩)
        ⟨200, "", JValue.obj []⟩ =
      (⟨1, 0, 0⟩, ⟨JValue.obj [("access_token", JValue.str "t")], none⟩,
        .error ("QuickBooks API error: " ++ toString (409 : Nat) ++
          " - " ++ "stale object conflict")) :=
  qbRequest_non401_error ⟨JValue.obj [("access_token", JValue.str "t")], none⟩
    (fun _ => ⟨409, "stale object conflict", JValue.null⟩)
    ⟨200, "", JValue.obj []⟩ rfl rfl rfl

/-- Claim C1: on a 401 first response an authenticated executor run invokes
refresh exactly once; when the refresh succeeds it retries the original
request exactly once (two API calls in total), and if the retried request is
again a 401 it fails with the terminal unauthorized-after-refresh error;
when the refresh fails, its error propagates and there is no retry.  In
every run whatsoever the executor issues at most two API requests and at
most one refresh. -/
theorem qbRequest_refresh_retry_once (w : World) (api : Nat → HttpResp)
    (tok : HttpResp)
    (hauth : jTruthyO (jGet w.mem "access_token") = true)
    (h401 : (api 0).status = 401) :
    (qbRequest w api tok).1.refreshCalls = 1 ∧
    (∀ n w1, refreshTokens w tok = (n, .ok w1) →
      (qbRequest w api tok).1.apiCalls = 2 ∧
      ((api 1).status = 401 →
        (qbRequest w api tok).2.2 = .error "Unauthorized after token refresh.")) ∧
    (∀ n e, refreshTokens w tok = (n, .error e) →
      (qbRequest w api tok).1.apiCalls = 1 ∧
      (qbRequest w api tok).2.2 = .error e) ∧
    (∀ (w' : World) (api' : Nat → HttpResp) (tok' : HttpResp),
      (qbRequest w' api' tok').1.apiCalls ≤ 2 ∧
      (qbRequest w' api' tok').1.refreshCalls ≤ 1) := by
  have hd0 : doFetch (api 0) =
      .ok (JValue.obj [("needRefresh", JValue.bool true),
                       ("text", JValue.str (api 0).text)]) := by
    simp [doFetch, h401, httpOk]
  have key : qbRequest w api tok =
      match refreshTokens w tok with
      | (n, .error e) => (⟨1, 1, n⟩, w, .error e)
      | (n, .ok w1) =>
        match doFetch (api 1) with
        | .error e => (⟨2, 1, n⟩, w1, .error e)
        | .ok v1 =>
          if needsRefresh v1 then
            (⟨2, 1, n⟩, w1, .error "Unauthorized after token refresh.")
          else (⟨2, 1, n⟩, w1, .ok v1) := by
    have hnr0 : needsRefresh (JValue.obj [("needRefresh", JValue.bool true),
        ("text", JValue.str (api 0).text)]) = true := rfl
    simp [qbRequest, hauth, hd0, hnr0]
  refine ⟨?_, ?_, ?_, ?_⟩
  · rw [key]
    rcases hr : refreshTokens w tok with ⟨n, r⟩
    cases r with
    | error e => rfl
    | ok w1 =>
      cases hd1 : doFetch (api 1) with
      | error e => rfl
      | ok v1 => cases hnr1 : needsRefresh v1 <;> simp [hnr1]
  · intro n w1 hr
    rw [key, hr]
    constructor
    · cases hd1 : doFetch (api 1) with
      | error e => rfl
      | ok v1 => cases hnr1 : needsRefresh v1 <;> simp [hnr1]
    · intro h1
      have hd1 : doFetch (api 1) =
          .ok (JValue.obj [("needRefresh", JValue.bool true),
                           ("text", JValue.str (api 1).text)]) := by
        simp [doFetch, h1, httpOk]
      rw [hd1]
      rfl
  · intro n e hr
    rw [key, hr]
    exact ⟨rfl, rfl⟩
  · intro w' api' tok'
    by_cases ha : jTruthyO (jGet w'.mem "access_token") = true
    · cases hd : doFetch (api' 0) with
      | error e => simp [qbRequest, ha, hd]
      | ok v0 =>
        cases hnr : needsRefresh v0 with
        | false => simp [qbRequest, ha, hd, hnr]
        | true =>
          rcases hr : refreshTokens w' tok' with ⟨n, r⟩
          cases r with
          | error e => simp [qbRequest, ha, hd, hnr, hr]
          | ok w1 =>
            cases hd1 : doFetch (api' 1) with
            | error e => simp [qbRequest, ha, hd, hnr, hr, hd1]
            | ok v1 =>
              cases hnr1 : needsRefresh v1 <;>
                simp [qbRequest, ha, hd, hnr, hr, hd1, hnr1]
    · have ha2 : jTruthyO (jGet w'.mem "access_token") = false := by
        cases h : jTruthyO (jGet w'.mem "access_token")
        · rfl
        · exact absurd h ha
      simp [qbRequest, ha2]

theorem qbRequest_refresh_retry_once_witness :
    (qbRequest ⟨JValue.obj [("access_token", JValue.str "a"),
                            ("refresh_token", JValue.str "r")], none⟩
        (fun _ => ⟨401, "unauthorized", JValue.null⟩)
        ⟨200, "", JValue.obj []⟩).1.refreshCalls = 1 ∧
    (qbRequest ⟨JValue.obj [("access_token", JValue.str "a"),
                            ("refresh_token", JValue.str "r")], none⟩
        (fun _ => ⟨401, "unauthorized", JValue.null⟩)
        ⟨200, "", JValue.obj []⟩).1.apiCalls = 2 ∧
    (qbRequest ⟨JValue.obj [("access_token", JValue.str "a"),
                            ("refresh_token", JValue.str "r")], none⟩
        (fun _ => ⟨401, "unauthorized", JValue.null⟩)
        ⟨200, "", JValue.obj []⟩).2.2 =
      .error "Unauthorized after token refresh." := by
  have h := qbRequest_refresh_retry_once
    ⟨JValue.obj [("access_token", JValue.str "a"),
                 ("refresh_token", JValue.str "r")], none⟩
    (fun _ => ⟨401, "unauthorized", JValue.null⟩)
    ⟨200, "", JValue.obj []⟩ rfl rfl
  have h2 := h.2.1 1
    ⟨JValue.obj [("access_token", JValue.str "a"),
                 ("refresh_token", JValue.str "r")],
     some (JValue.obj [("access_token", JValue.str "a"),
                       ("refresh_token", JValue.str "r")])⟩ rfl
  exact ⟨h.1, h2.1, h2.2 rfl⟩

/-- Claim C3: a sparse active-flag update against an entity fetched with
Id "42" and SyncToken "3" produces a write body holding exactly Id "42",
SyncToken "3", the sparse flag, and Active:false — and no other mapped
field.  For accounts this is `update_account` with patch `active := false`
(and equally `set_account_active`); for customers the active-flag sparse
update is the `set_customer_active` tool, whose input schema carries the
active flag. -/
theorem sparse_active_write_body :
    update_account "42" true { active := some false }
        (.ok (.obj [("Account", .obj [("Id", .str "42"), ("SyncToken", .str "3")])]))
        (.ok JValue.null) =
      ([QbCall.get "account/42",
        QbCall.post "account?operation=update"
          (.obj [("Id", .str "42"), ("SyncToken", .str "3"),
                 ("sparse", .bool true), ("Active", .bool false)])],
       .ok JValue.null) ∧
    set_account_active "42" false
        (.ok (.obj [("Account", .obj [("Id", .str "42"), ("SyncToken", .str "3")])]))
        (.ok JValue.null) =
      ([QbCall.get "account/42",
        QbCall.post "account?operation=update"
          (.obj [("Id", .str "42"), ("SyncToken", .str "3"),
                 ("sparse", .bool true), ("Active", .bool false)])],
       .ok JValue.null) ∧
    set_customer_active "42" false
        (.ok (.obj [("Customer", .obj [("Id", .str "42"), ("SyncToken", .str "3")])]))
        (.ok JValue.null) =
      ([QbCall.get "customer/42",
        QbCall.post "customer?operation=update"
          (.obj [("Id", .str "42"), ("SyncToken", .str "3"),
                 ("sparse", .bool true), ("Active", .bool false)])],
       .ok JValue.null) :=
  ⟨rfl, rfl, rfl⟩

/-- Claim C2: in every update operation (update_customer, update_account,
set_customer_active, set_account_active) the fetch is the first executor
call and the write body is built from that fetch's result: its Id and
SyncToken are exactly the fetched values.  When the fetch result is not a
usable record the operation fails with the could-not-fetch error and issues
no write; when the fetch itself failed, its error propagates and no write is
issued either. -/
theorem update_fetch_before_write :
    (∀ (id : String) (sp : Bool) (p : CustomerInput)
       (post : Except String JValue) (d : JValue) (idv stv : JValue),
      fetchedIdSync (getCustomerRaw d) = some (idv, stv) →
      ∃ b, (update_customer id sp p (.ok d) post).1 =
          [QbCall.get ("customer/" ++ id),
           QbCall.post "customer?operation=update" (JValue.obj b)] ∧
        oGet b "Id" = some idv ∧ oGet b "SyncToken" = some stv) ∧
    (∀ id sp p post d, fetchedIdSync (getCustomerRaw d) = none →
      update_customer id sp p (.ok d) post =
        ([QbCall.get ("customer/" ++ id)],
         .error "Could not fetch existing customer or SyncToken.")) ∧
    (∀ id sp p post e, update_customer id sp p (.error e) post =
        ([QbCall.get ("customer/" ++ id)], .error e)) ∧
    (∀ (id : String) (sp : Bool) (p : AccountInput)
       (post : Except String JValue) (d : JValue) (idv stv : JValue),
      fetchedIdSync (getAccountRaw d) = some (idv, stv) →
      ∃ b, (update_account id sp p (.ok d) post).1 =
          [QbCall.get ("account/" ++ id),
           QbCall.post "account?operation=update" (JValue.obj b)] ∧
        oGet b "Id" = some idv ∧ oGet b "SyncToken" = some stv) ∧
    (∀ id sp p post d, fetchedIdSync (getAccountRaw d) = none →
      update_account id sp p (.ok d) post =
        ([QbCall.get ("account/" ++ id)],
         .error "Could not fetch existing account or SyncToken.")) ∧
    (∀ id sp p post e, update_account id sp p (.error e) post =
        ([QbCall.get ("account/" ++ id)], .error e)) ∧
    (∀ (id : String) (ac : Bool) (post : Except String JValue)
       (d : JValue) (idv stv : JValue),
      fetchedIdSync (getCustomerRaw d) = some (idv, stv) →
      ∃ b, (set_customer_active id ac (.ok d) post).1 =
          [QbCall.get ("customer/" ++ id),
           QbCall.post "customer?operation=update" (JValue.obj b)] ∧
        oGet b "Id" = some idv ∧ oGet b "SyncToken" = some stv) ∧
    (∀ id ac post d, fetchedIdSync (getCustomerRaw d) = none →
      set_customer_active id ac (.ok d) post =
        ([QbCall.get ("customer/" ++ id)],
         .error "Could not fetch existing customer or SyncToken.")) ∧
    (∀ id ac post e, set_customer_active id ac (.error e) post =
        ([QbCall.get ("customer/" ++ id)], .error e)) ∧
    (∀ (id : String) (ac : Bool) (post : Except String JValue)
       (d : JValue) (idv stv : JValue),
      fetchedIdSync (getAccountRaw d) = some (idv, stv) →
      ∃ b, (set_account_active id ac (.ok d) post).1 =
          [QbCall.get ("account/" ++ id),
           QbCall.post "account?operation=update" (JValue.obj b)] ∧
        oGet b "Id" = some idv ∧ oGet b "SyncToken" = some stv) ∧
    (∀ id ac post d, fetchedIdSync (getAccountRaw d) = none →
      set_account_active id ac (.ok d) post =
        ([QbCall.get ("account/" ++ id)],
         .error "Could not fetch existing account or SyncToken.")) ∧
    (∀ id ac post e, set_account_active id ac (.error e) post =
        ([QbCall.get ("account/" ++ id)], .error e)) := by
  refine ⟨?_, ?_, ?_, ?_, ?_, ?_, ?_, ?_, ?_, ?_, ?_, ?_⟩
  · intro id sp p post d idv stv h
    refine ⟨oMerge (oMerge [("Id", idv), ("SyncToken", stv)]
        (if sp then [("sparse", JValue.bool true)] else []))
        (mapCustomerInputToQBO p), ?_, ?_, ?_⟩
    · cases post <;> simp [update_customer, h]
    · rw [oGet_oMerge, (mapCustomer_no_meta p).1, oGet_oMerge]
      cases sp <;> simp [oGet, oAlt]
    · rw [oGet_oMerge, (mapCustomer_no_meta p).2.1, oGet_oMerge]
      cases sp <;> simp [oGet, oAlt]
  · intro id sp p post d h
    simp [update_customer, h]
  · intro id sp p post e
    rfl
  · intro id sp p post d idv stv h
    refine ⟨oMerge (oMerge [("Id", idv), ("SyncToken", stv)]
        (if sp then [("sparse", JValue.bool true)] else []))
        (mapAccountInputToQBO p), ?_, ?_, ?_⟩
    · cases post <;> simp [update_account, h]
    · rw [oGet_oMerge, (mapAccount_no_meta p).1, oGet_oMerge]
      cases sp <;> simp [oGet, oAlt]
    · rw [oGet_oMerge, (mapAccount_no_meta p).2.1, oGet_oMerge]
      cases sp <;> simp [oGet, oAlt]
  · intro id sp p post d h
    simp [update_account, h]
  · intro id sp p post e
    rfl
  · intro id ac post d idv stv h
    refine ⟨[("Id", idv), ("SyncToken", stv),
        ("sparse", JValue.bool true), ("Active", JValue.bool ac)], ?_, ?_, ?_⟩
    · cases post <;> simp [set_customer_active, h]
    · simp [oGet]
    · simp [oGet]
  · intro id ac post d h
    simp [set_customer_active, h]
  · intro id ac post e
    rfl
  · intro id ac post d idv stv h
    refine ⟨[("Id", idv), ("SyncToken", stv),
        ("sparse", JValue.bool true), ("Active", JValue.bool ac)], ?_, ?_, ?_⟩
    · cases post <;> simp [set_account_active, h]
    · simp [oGet]
    · simp [oGet]
  · intro id ac post d h
    simp [set_account_active, h]
  · intro id ac post e
    rfl

theorem update_fetch_before_write_witness :
    (∃ b, (update_customer "42" true {}
        (.ok (.obj [("Customer", .obj [("Id", JValue.str "42"),
                                       ("SyncToken", JValue.str "3")])]))
        (.ok JValue.null)).1 =
          [QbCall.get ("customer/" ++ "42"),
           QbCall.post "customer?operation=update" (JValue.obj b)] ∧
        oGet b "Id" = some (JValue.str "42") ∧
        oGet b "SyncToken" = some (JValue.str "3")) ∧
    update_account "9" false {} (.ok (.obj [("Fault", JValue.obj [])]))
        (.ok JValue.null) =
      ([QbCall.get ("account/" ++ "9")],
       .error "Could not fetch existing account or SyncToken.") :=
  ⟨update_fetch_before_write.1 "42" true {}
      (.ok JValue.null)
      (.obj [("Customer", .obj [("Id", JValue.str "42"),
                                ("SyncToken", JValue.str "3")])])
      (JValue.str "42") (JValue.str "3") rfl,
   update_fetch_before_write.2.2.2.2.1 "9" false {} (.ok JValue.null)
      (.obj [("Fault", JValue.obj [])]) rfl⟩

/-- Claim C10 counterexample: it is not the case that the mappers omit every
string field whose value is the empty string.  The account mapper's
`taxCodeRef` line is gated on `typeof === "string"`, not on truthiness, so a
patch with an empty `taxCodeRef` emits `TaxCodeRef` wrapping the empty
string instead of omitting it. -/
theorem mapper_empty_string_counterexample :
    oGet (mapAccountInputToQBO { taxCodeRef := some "" }) "TaxCodeRef" ≠ none ∧
    oGet (mapAccountInputToQBO { taxCodeRef := some "" }) "TaxCodeRef" =
      some (.obj [("value", .str "")]) :=
  ⟨fun h => Option.noConfusion h, rfl⟩

/-- Claim C10 as amended: every truthiness-gated top-level string field is
omitted when its value is the empty string — that is all top-level string
fields of both mappers except the account mapper's `taxCodeRef`, which is
gated on a string type check and is emitted even when empty (`subAccount`,
`active`, `taxExempt` use boolean type checks and `currentBalance` a number
type check; address sub-fields are copied without a gate). -/
theorem mapper_empty_string_gating :
    (∀ inp : CustomerInput, inp.displayName = some "" →
      oGet (mapCustomerInputToQBO inp) "DisplayName" = none) ∧
    (∀ inp : CustomerInput, inp.companyName = some "" →
      oGet (mapCustomerInputToQBO inp) "CompanyName" = none) ∧
    (∀ inp : CustomerInput, inp.title = some "" →
      oGet (mapCustomerInputToQBO inp) "Title" = none) ∧
    (∀ inp : CustomerInput, inp.givenName = some "" →
      oGet (mapCustomerInputToQBO inp) "GivenName" = none) ∧
    (∀ inp : CustomerInput, inp.middleName = some "" →
      oGet (mapCustomerInputToQBO inp) "MiddleName" = none) ∧
    (∀ inp : CustomerInput, inp.familyName = some "" →
      oGet (mapCustomerInputToQBO inp) "FamilyName" = none) ∧
    (∀ inp : CustomerInput, inp.suffix = some "" →
      oGet (mapCustomerInputToQBO inp) "Suffix" = none) ∧
    (∀ inp : CustomerInput, inp.notes = some "" →
      oGet (mapCustomerInputToQBO inp) "Notes" = none) ∧
    (∀ inp : CustomerInput, inp.primaryEmail = some "" →
      oGet (mapCustomerInputToQBO inp) "PrimaryEmailAddr" = none) ∧
    (∀ inp : CustomerInput, inp.primaryPhone = some "" →
      oGet (mapCustomerInputToQBO inp) "PrimaryPhone" = none) ∧
    (∀ inp : CustomerInput, inp.mobilePhone = some "" →
      oGet (mapCustomerInputToQBO inp) "Mobile" = none) ∧
    (∀ inp : CustomerInput, inp.fax = some "" →
      oGet (mapCustomerInputToQBO inp) "Fax" = none) ∧
    (∀ inp : AccountInput, inp.name = some "" →
      oGet (mapAccountInputToQBO inp) "Name" = none) ∧
    (∀ inp : AccountInput, inp.fullyQualifiedName = some "" →
      oGet (mapAccountInputToQBO inp) "FullyQualifiedName" = none) ∧
    (∀ inp : AccountInput, inp.accountType = some "" →
      oGet (mapAccountInputToQBO inp) "AccountType" = none) ∧
    (∀ inp : AccountInput, inp.accountSubType = some "" →
      oGet (mapAccountInputToQBO inp) "AccountSubType" = none) ∧
    (∀ inp : AccountInput, inp.description = some "" →
      oGet (mapAccountInputToQBO inp) "Description" = none) ∧
    (∀ inp : AccountInput, inp.classification = some "" →
      oGet (mapAccountInputToQBO inp) "Classification" = none) ∧
    (∀ inp : AccountInput, inp.accountNumber = some "" →
      oGet (mapAccountInputToQBO inp) "AcctNum" = none) ∧
    (∀ inp : AccountInput, inp.currencyRef = some "" →
      oGet (mapAccountInputToQBO inp) "CurrencyRef" = none) ∧
    (∀ inp : AccountInput, inp.parentRef = some "" →
      oGet (mapAccountInputToQBO inp) "ParentRef" = none) ∧
    (∀ inp : AccountInput, inp.taxCodeRef = some "" →
      oGet (mapAccountInputToQBO inp) "TaxCodeRef" =
        some (.obj [("value", .str "")])) := by
  refine ⟨?_, ?_, ?_, ?_, ?_, ?_, ?_, ?_, ?_, ?_, ?_, ?_, ?_, ?_, ?_, ?_,
    ?_, ?_, ?_, ?_, ?_, ?_⟩ <;>
  · intro inp h
    simp [mapCustomerInputToQBO, mapAccountInputToQBO, oGet_append, oGet_jfield,
      oAlt, oAlt_none, tstrv, wrapv, h]

theorem mapper_empty_string_gating_witness :
    oGet (mapCustomerInputToQBO { displayName := some "" }) "DisplayName" = none ∧
    oGet (mapAccountInputToQBO { currencyRef := some "" }) "CurrencyRef" = none :=
  ⟨mapper_empty_string_gating.1 { displayName := some "" } rfl,
   (mapper_empty_string_gating.2.2.2.2.2.2.2.2.2.2.2.2.2.2.2.2.2.2.2.1)
     { currencyRef := some "" } rfl⟩
